import Mathlib

/-!
# Lifecycle bridge `CDgnAppSupport` (NatlinkSource/COM/appsupp.cpp)

A shallow embedding of the COM support object that Dragon NaturallySpeaking
drives: `Register`, `UnRegister`, `AddProcess`, `EndProcess`, `reloadPython`
and `addCoreToSysPath`.

Every call the C++ code makes to the outside (the Python C API, the shared
`CDragonCode` object, Win32) is appended to `State.trace`, in program order.
Functions of the repository that live in other translation units
(`initModule`, `executePyCodeAsModule`, `parsePyErrString`, the `CDragonCode`
methods) and the interpreter calls whose result depends on the installation
(`PyImport_ImportModule`) are parameters, collected in `Env`.
The trace holds the calls appsupp.cpp makes itself; what a collaborator does
inside such a call shows in the interpreter state it hands back.
A call through a NULL `m_pDragCode` is undefined behaviour in C++ and is
modelled by the result `none`.
-/

namespace Natlink

set_option linter.dupNamespace false

/-- A non-null `PyObject *`, identified by a number. -/
abbrev PyObject := Nat

/-- A non-null `CDragonCode *`. -/
abbrev CDragonCodePtr := Nat

/-- The `IServiceProvider *` handed over by NatSpeak (`none` is NULL). -/
abbrev Site := Option Nat

/-- COM status code. -/
abbrev HRESULT := Int

/-- The success status. -/
def S_OK : HRESULT := 0

/-- The calls appsupp.cpp makes to its collaborators. `Py_Finalize` is the
interpreter's teardown call; it is listed so that statements about it can be
written down. -/
inductive Event where
  | Py_Initialize
  | Py_Finalize
  | initModule
  | setAppClass
  | natConnect (pIDgnSite : Site)
  | natDisconnect
  | OutputDebugString (text : String)
  | displayText (pszText : String) (bError : Bool)
  | setDuringInit (bState : Bool)
  | executePyCodeAsModule (codeString moduleName : String)
  | parsePyErrString
  | PyErr_Clear
  | PySys_GetObject (name : String)
  | PyDict_DelItemString (dict : PyObject) (key : String)
  | Py_DECREF (o : PyObject)
  | PyImport_ImportModule (name : String)
  | PyImport_ReloadModule (m : PyObject)
  deriving DecidableEq, Repr

/-- The part of the embedded interpreter that appsupp.cpp reads or writes:
the attributes of the `sys` module, the entries of dictionary objects (all
objects reached through `sys.modules` are taken to be dictionaries), and the
error indicator. -/
structure Interp where
  sysAttr : String → Option PyObject
  dictItems : PyObject → String → Option PyObject
  errIndicator : Option String

/-- Behaviour that is not fixed by appsupp.cpp. -/
structure Env where
  /-- `Py_Initialize()`: the interpreter state the runtime comes up in. -/
  Py_Initialize : Interp → Interp
  /-- `initModule()` of PythWrap.cpp: pointer to the shared `CDragonCode`. -/
  initModule : Interp → CDragonCodePtr × Interp
  /-- `CDragonCode::natConnect`. -/
  natConnect : Site → Interp → Bool × Interp
  /-- `CDragonCode::natDisconnect`. -/
  natDisconnect : Interp → Interp
  /-- `executePyCodeAsModule` of PythWrap.cpp. -/
  executePyCodeAsModule : String → String → Interp → Option PyObject × Interp
  /-- `parsePyErrString` of PythWrap.cpp. -/
  parsePyErrString : Interp → Option String × Interp
  /-- `PyImport_ImportModule`. -/
  PyImport_ImportModule : String → Interp → Option PyObject × Interp
  /-- `PyImport_ReloadModule`, for a module object. -/
  PyImport_ReloadModule : PyObject → Interp → Option PyObject × Interp
  /-- The default value of `bError` in the declaration of
  `CDragonCode::displayText` (DragonCode.h). -/
  displayTextDefault : Bool

/-- The bridge object's two members together with the collaborators' state. -/
structure State where
  m_pNatLinkMain : Option PyObject
  m_pDragCode : Option CDragonCodePtr
  /-- The interpreter runtime has been initialised and not finalised. -/
  pyRunning : Bool
  interp : Interp
  /-- The engine connection is up. -/
  connected : Bool
  /-- The initialisation-in-progress flag of `CDragonCode`. -/
  duringInit : Bool
  trace : List Event

/-- Record one call. -/
def State.log (s : State) (e : Event) : State :=
  { s with trace := s.trace ++ [e] }

/-! ## Collaborators -/

/-- `Py_Initialize()`. -/
def Py_Initialize (env : Env) (s : State) : State :=
  { s.log Event.Py_Initialize with
      pyRunning := true, interp := env.Py_Initialize s.interp }

/-- `initModule()`. -/
def initModule (env : Env) (s : State) : CDragonCodePtr × State :=
  ((env.initModule s.interp).1,
   { s.log Event.initModule with interp := (env.initModule s.interp).2 })

/-- `OutputDebugString(text)`. -/
def OutputDebugString (text : String) (s : State) : State :=
  s.log (Event.OutputDebugString text)

/-- `m_pDragCode->setAppClass( this )`. -/
def setAppClass (s : State) : Option State :=
  match s.m_pDragCode with
  | none => none
  | some _ => some (s.log Event.setAppClass)

/-- `m_pDragCode->natConnect( pIDgnSite )`. -/
def natConnect (env : Env) (pIDgnSite : Site) (s : State) : Option (Bool × State) :=
  match s.m_pDragCode with
  | none => none
  | some _ =>
    some ((env.natConnect pIDgnSite s.interp).1,
      { s.log (Event.natConnect pIDgnSite) with
          interp := (env.natConnect pIDgnSite s.interp).2,
          connected := (env.natConnect pIDgnSite s.interp).1 })

/-- `m_pDragCode->natDisconnect()`. -/
def natDisconnect (env : Env) (s : State) : Option State :=
  match s.m_pDragCode with
  | none => none
  | some _ =>
    some { s.log Event.natDisconnect with
             interp := env.natDisconnect s.interp, connected := false }

/-- `m_pDragCode->displayText( pszText, bError )`. -/
def displayText (pszText : String) (bError : Bool) (s : State) : Option State :=
  match s.m_pDragCode with
  | none => none
  | some _ => some (s.log (Event.displayText pszText bError))

/-- `m_pDragCode->setDuringInit( bState )`. -/
def setDuringInit (bState : Bool) (s : State) : Option State :=
  match s.m_pDragCode with
  | none => none
  | some _ => some { s.log (Event.setDuringInit bState) with duringInit := bState }

/-- `executePyCodeAsModule( codeString, moduleName )`. -/
def executePyCodeAsModule (env : Env) (codeString moduleName : String) (s : State) :
    Option PyObject × State :=
  ((env.executePyCodeAsModule codeString moduleName s.interp).1,
   { s.log (Event.executePyCodeAsModule codeString moduleName) with
       interp := (env.executePyCodeAsModule codeString moduleName s.interp).2 })

/-- `parsePyErrString()`. -/
def parsePyErrString (env : Env) (s : State) : Option String × State :=
  ((env.parsePyErrString s.interp).1,
   { s.log Event.parsePyErrString with interp := (env.parsePyErrString s.interp).2 })

/-- `PyErr_Clear()`. -/
def PyErr_Clear (s : State) : State :=
  { s.log Event.PyErr_Clear with interp := { s.interp with errIndicator := none } }

/-- `PySys_GetObject( name )`: the attribute, or NULL; no error is set. -/
def PySys_GetObject (name : String) (s : State) : Option PyObject × State :=
  (s.interp.sysAttr name, s.log (Event.PySys_GetObject name))

/-- `PyDict_DelItemString( dict, key )`: removes the entry and returns 0, or
returns -1 with `KeyError` set when there is no such entry. -/
def PyDict_DelItemString (dict : PyObject) (key : String) (s : State) : Int × State :=
  match s.interp.dictItems dict key with
  | some _ =>
    (0, { s.log (Event.PyDict_DelItemString dict key) with
            interp := { s.interp with
              dictItems := fun d k =>
                if d = dict ∧ k = key then none else s.interp.dictItems d k } })
  | none =>
    (-1, { s.log (Event.PyDict_DelItemString dict key) with
             interp := { s.interp with errIndicator := some "KeyError" } })

/-- `Py_DECREF( o )`. -/
def Py_DECREF (o : PyObject) (s : State) : State :=
  s.log (Event.Py_DECREF o)

/-- `Py_XDECREF( o )`: nothing for NULL. -/
def Py_XDECREF (o : Option PyObject) (s : State) : State :=
  match o with
  | none => s
  | some p => Py_DECREF p s

/-- `PyImport_ImportModule( name )`. -/
def PyImport_ImportModule (env : Env) (name : String) (s : State) :
    Option PyObject × State :=
  ((env.PyImport_ImportModule name s.interp).1,
   { s.log (Event.PyImport_ImportModule name) with
       interp := (env.PyImport_ImportModule name s.interp).2 })

/-- `PyImport_ReloadModule( m )`. The argument is handed over unchecked; for
NULL the call has no defined result, which is modelled by `none`. -/
def PyImport_ReloadModule (env : Env) (m : Option PyObject) (s : State) :
    Option (Option PyObject × State) :=
  match m with
  | none => none
  | some p =>
    some ((env.PyImport_ReloadModule p s.interp).1,
      { s.log (Event.PyImport_ReloadModule p) with
          interp := (env.PyImport_ReloadModule p s.interp).2 })

/-! ## The methods of `CDgnAppSupport` -/

namespace CDgnAppSupport

/-- The constructor: both members start out NULL. -/
def CDgnAppSupport (s : State) : State :=
  { s with m_pNatLinkMain := none, m_pDragCode := none }

/-- The name of the throwaway module of `addCoreToSysPath`. -/
def moduleName : String := "TempPyModule"

/-- The Python snippet of `addCoreToSysPath`. -/
def codeString : String :=
  "import winreg, sys, traceback\n" ++
  "hive = winreg.HKEY_LOCAL_MACHINE\n" ++
  "key = \"Software\\\\Python\\\\PythonCore\\\\\" + sys.winver + \"\\\\PythonPath\\\\Natlink\"\n" ++
  "flags = winreg.KEY_READ | winreg.KEY_WOW64_32KEY\n" ++
  "natlink_key = winreg.OpenKeyEx(hive, key, access=flags)\n" ++
  "core_path = winreg.QueryValue(natlink_key, \"\")\n" ++
  "sys.path.append(core_path)\n" ++
  "winreg.CloseKey(natlink_key)\n"

/-- `BOOL CDgnAppSupport::addCoreToSysPath()`. -/
def addCoreToSysPath (env : Env) (s : State) : Option (Bool × State) :=
  match executePyCodeAsModule env codeString moduleName s with
  | (none, s) =>
    -- if( !pModule )
    match parsePyErrString env s with
    | (some errorMessage, s) => do
      let s ← displayText "An exception occurred during addCoreToSysPath():\r\n"
                env.displayTextDefault s
      let s ← displayText errorMessage true s
      let s ← displayText "\r\n" env.displayTextDefault s
      let s := PyErr_Clear s
      let s := Py_XDECREF none s
      pure (false, s)
    | (none, s) =>
      let s := PyErr_Clear s
      let s := Py_XDECREF none s
      some (false, s)
  | (some pModule, s) =>
    match PySys_GetObject "modules" s with
    | (some pSysModules, s) =>
      let s := (PyDict_DelItemString pSysModules moduleName s).2
      let s := Py_DECREF pSysModules s
      let s := Py_XDECREF (some pModule) s
      some (true, s)
    | (none, s) =>
      let s := Py_XDECREF (some pModule) s
      some (true, s)

/-- `STDMETHODIMP CDgnAppSupport::Register( IServiceProvider * pIDgnSite )`. -/
def Register (env : Env) (pIDgnSite : Site) (s : State) : Option (HRESULT × State) := do
  -- load and initialize the Python system
  let s := Py_Initialize env s
  -- m_pDragCode = initModule(); m_pDragCode->setAppClass( this );
  let (p, s) := initModule env s
  let s := { s with m_pDragCode := some p }
  let s ← setAppClass s
  let (bSuccess, s) ← natConnect env pIDgnSite s
  if !bSuccess then
    let s := OutputDebugString "NatLink: failed to initialize NatSpeak interfaces" s
    let s ← displayText "Failed to initialize NatSpeak interfaces\r\n" true s
    pure (S_OK, s)
  else
    -- attempt to add the natlink core directory to sys.path
    let (_, s) ← addCoreToSysPath env s
    -- now load the Python code which sets all the callback functions
    let s ← setDuringInit true s
    let (m, s) := PyImport_ImportModule env "natlinkmain" s
    let s := { s with m_pNatLinkMain := m }
    let s ← setDuringInit false s
    match s.m_pNatLinkMain with
    | none =>
      let s := OutputDebugString
        "NatLink: an exception occurred loading 'natlinkmain' module" s
      let s ← displayText "An exception occurred loading 'natlinkmain' module:\r\n" true s
      match parsePyErrString env s with
      | (some errorMessage, s) =>
        let s ← displayText errorMessage true s
        let s ← displayText "\r\n" env.displayTextDefault s
        pure (S_OK, s)
      | (none, s) => pure (S_OK, s)
    | some _ => pure (S_OK, s)

/-- `STDMETHODIMP CDgnAppSupport::UnRegister()`. -/
def UnRegister (env : Env) (s : State) : Option (HRESULT × State) := do
  -- simulate calling natlink.natDisconnect()
  let s ← natDisconnect env s
  -- free our reference to the Python modules
  let s := Py_XDECREF s.m_pNatLinkMain s
  pure (S_OK, s)

/-- `STDMETHODIMP CDgnAppSupport::AddProcess(...)`; the UNICODE and the
narrow variant have the same body. A string argument is a pointer and may be
NULL. -/
def AddProcess (_dwProcessID : Nat) (_pszModuleName _pszRegistryKey : Option String)
    (_lcid : Nat) (s : State) : HRESULT × State :=
  (S_OK, s)

/-- `STDMETHODIMP CDgnAppSupport::EndProcess( DWORD dwProcessID )`. -/
def EndProcess (_dwProcessID : Nat) (s : State) : HRESULT × State :=
  (S_OK, s)

/-- `void CDgnAppSupport::reloadPython()`: `m_pNatLinkMain` is passed on as it
is, NULL included; the returned reference is dropped. -/
def reloadPython (env : Env) (s : State) : Option State :=
  match PyImport_ReloadModule env s.m_pNatLinkMain s with
  | some r => some r.2
  | none => none

/-! ## Vocabulary for the statements -/

/-- The texts sent to the display sink by a run of calls, with their error
flag, in order. -/
def displayed (es : List Event) : List (String × Bool) :=
  es.filterMap fun e =>
    match e with
    | Event.displayText t b => some (t, b)
    | _ => none

/-- The calls of a run that happen while the initialisation-in-progress flag
is set; `flag` is the value of the flag when the run starts. -/
def duringInitEvents : Bool → List Event → List Event
  | _, [] => []
  | _, Event.setDuringInit b :: es => duringInitEvents b es
  | flag, e :: es =>
    if flag then e :: duringInitEvents flag es else duringInitEvents flag es

/-- The state in which `Register` has made its call to `natConnect`. -/
def stateAfterConnect (env : Env) (pIDgnSite : Site) (s : State) : State :=
  { m_pNatLinkMain := s.m_pNatLinkMain
    m_pDragCode := some (env.initModule (env.Py_Initialize s.interp)).1
    pyRunning := true
    interp :=
      (env.natConnect pIDgnSite (env.initModule (env.Py_Initialize s.interp)).2).2
    connected :=
      (env.natConnect pIDgnSite (env.initModule (env.Py_Initialize s.interp)).2).1
    duringInit := s.duringInit
    trace := s.trace ++ [Event.Py_Initialize, Event.initModule, Event.setAppClass,
      Event.natConnect pIDgnSite] }

/-- The state in which `addCoreToSysPath` returns when it is called in `st`
(`st` itself when the call does not return). -/
def stateAfterRepair (env : Env) (st : State) : State :=
  match addCoreToSysPath env st with
  | some r => r.2
  | none => st

/-- The result of the import of the startup module in `Register`. -/
def importResult (env : Env) (pIDgnSite : Site) (s : State) : Option PyObject × Interp :=
  env.PyImport_ImportModule "natlinkmain"
    (stateAfterRepair env (stateAfterConnect env pIDgnSite s)).interp

/-- The error text `Register` extracts after a failed import. -/
def importErrorText (env : Env) (pIDgnSite : Site) (s : State) : Option String :=
  (env.parsePyErrString (importResult env pIDgnSite s).2).1

/-- The calls `Register` makes after it has reset the initialisation flag,
as a function of the interpreter state `i` in which the repair step returned. -/
def importDiagnostics (env : Env) (i : Interp) : List Event :=
  match env.PyImport_ImportModule "natlinkmain" i with
  | (some _, _) => []
  | (none, j) =>
    Event.OutputDebugString "NatLink: an exception occurred loading 'natlinkmain' module" ::
    Event.displayText "An exception occurred loading 'natlinkmain' module:\r\n" true ::
    Event.parsePyErrString ::
    match (env.parsePyErrString j).1 with
    | some t => [Event.displayText t true, Event.displayText "\r\n" env.displayTextDefault]
    | none => []

/-- A host notification other than `Register` and `UnRegister`. -/
inductive Notification where
  | addProcess (dwProcessID : Nat) (pszModuleName pszRegistryKey : Option String) (lcid : Nat)
  | endProcess (dwProcessID : Nat)

/-- Deliver one notification to the bridge. -/
def deliver (n : Notification) (s : State) : HRESULT × State :=
  match n with
  | Notification.addProcess pid m k l => AddProcess pid m k l s
  | Notification.endProcess pid => EndProcess pid s

/-- Deliver a sequence of notifications, collecting the statuses. -/
def deliverAll : List Notification → State → List HRESULT × State
  | [], s => ([], s)
  | n :: ns, s =>
    ((deliver n s).1 :: (deliverAll ns (deliver n s).2).1,
     (deliverAll ns (deliver n s).2).2)

/-! ## Concrete collaborators, for evaluation -/

/-- An interpreter whose `sys.modules` is the object 1, with no entries. -/
def interp0 : Interp :=
  { sysAttr := fun n => if n = "modules" then some 1 else none
    dictItems := fun _ _ => none
    errIndicator := none }

/-- Collaborators with fixed outcomes: `conn` for the engine connection,
`rep` for the repair snippet, `imp` for the import. A failing snippet and a
failing import set the error indicator to `txt`, and `parsePyErrString`
returns and clears the indicator. A successful snippet enters its module in the
dictionary 1 under the given name. -/
def mkEnv (conn : Bool) (rep imp : Option PyObject) (txt : Option String) : Env :=
  { Py_Initialize := fun i => i
    initModule := fun i => (5, i)
    natConnect := fun _ i => (conn, i)
    natDisconnect := fun i => i
    executePyCodeAsModule := fun _ name i =>
      match rep with
      | some m => (some m, { i with dictItems := fun d k =>
          if d = 1 ∧ k = name then some m else i.dictItems d k })
      | none => (none, { i with errIndicator := txt })
    parsePyErrString := fun i => (i.errIndicator, { i with errIndicator := none })
    PyImport_ImportModule := fun _ i =>
      match imp with
      | some m => (some m, i)
      | none => (none, { i with errIndicator := txt })
    PyImport_ReloadModule := fun m i => (some m, i)
    displayTextDefault := true }

/-- Every step succeeds: the snippet yields the module 7, the import the
module 9. -/
def envAllOk : Env := mkEnv true (some 7) (some 9) none

/-- The engine connection fails. -/
def envConnectFails : Env := mkEnv false none none none

/-- The import of the startup module fails and leaves an error text. -/
def envImportFails : Env :=
  mkEnv true (some 7) none (some "ImportError: No module named natlinkmain")

/-- The repair snippet fails and leaves an error text; the import succeeds. -/
def envRepairFails : Env := mkEnv true none (some 9) (some "FileNotFoundError")

/-- The repair snippet fails and no error text can be extracted. -/
def envRepairSilent : Env := mkEnv true none none none

/-- A bridge fresh from its constructor, nothing called yet. -/
def state0 : State :=
  CDgnAppSupport
    { m_pNatLinkMain := none, m_pDragCode := none, pyRunning := false, interp := interp0,
      connected := false, duringInit := false, trace := [] }

/-- A fresh bridge over an interpreter whose `sys` has no attribute
`modules`; the dictionary 1 is still there. -/
def stateNoSysModules : State :=
  { state0 with interp := { interp0 with sysAttr := fun _ => none } }

/-- The state in which `Register` leaves a fresh bridge when every step
succeeds and the import returns the module 9. -/
def registered : State :=
  match Register envAllOk none state0 with
  | some r => r.2
  | none => state0

/-! ## Auxiliary lemmas -/

/-- The kinds of call `addCoreToSysPath` can make. -/
def isRepairEvent : Event → Bool
  | Event.executePyCodeAsModule _ _ => true
  | Event.parsePyErrString => true
  | Event.displayText _ _ => true
  | Event.PyErr_Clear => true
  | Event.PySys_GetObject _ => true
  | Event.PyDict_DelItemString _ _ => true
  | Event.Py_DECREF _ => true
  | _ => false

theorem displayed_append (a b : List Event) :
    displayed (a ++ b) = displayed a ++ displayed b := by
  simp [displayed]

/-- With a `CDragonCode` object in place `addCoreToSysPath` returns; it
leaves the members, the engine and the flag alone and makes only calls of
the kinds in `isRepairEvent`. -/
theorem addCoreToSysPath_frame (env : Env) (s : State) (d : CDragonCodePtr)
    (hd : s.m_pDragCode = some d) :
    ∃ r evs, addCoreToSysPath env s =
        some ((env.executePyCodeAsModule codeString moduleName s.interp).1.isSome, r) ∧
      r.m_pDragCode = some d ∧ r.m_pNatLinkMain = s.m_pNatLinkMain ∧
      r.connected = s.connected ∧ r.duringInit = s.duringInit ∧
      r.pyRunning = s.pyRunning ∧ r.trace = s.trace ++ evs ∧
      (∀ e ∈ evs, isRepairEvent e = true) ∧
      ((env.executePyCodeAsModule codeString moduleName s.interp).1.isSome = true →
        displayed evs = []) := by
  unfold addCoreToSysPath
  rcases h1 : env.executePyCodeAsModule codeString moduleName s.interp with ⟨_ | m, i1⟩
  · rcases h2 : env.parsePyErrString i1 with ⟨_ | t, i2⟩
    · simp [executePyCodeAsModule, parsePyErrString, PyErr_Clear, Py_XDECREF, State.log, h1, h2, hd,
        isRepairEvent]
    · simp [executePyCodeAsModule, parsePyErrString, PyErr_Clear, Py_XDECREF, State.log, h1, h2, hd,
        isRepairEvent, displayText]
  · rcases h3 : i1.sysAttr "modules" with _ | p
    · simp [executePyCodeAsModule, PySys_GetObject, Py_XDECREF, Py_DECREF, State.log, h1, h3, hd,
        isRepairEvent, displayed]
    · rcases h4 : i1.dictItems p moduleName with _ | q
      · simp [executePyCodeAsModule, PySys_GetObject, Py_XDECREF, Py_DECREF, State.log, h1, h3, h4,
          hd, isRepairEvent, displayed, PyDict_DelItemString]
      · simp [executePyCodeAsModule, PySys_GetObject, Py_XDECREF, Py_DECREF, State.log, h1, h3, h4,
          hd, isRepairEvent, displayed, PyDict_DelItemString]

/-- `Register` when the engine connection fails. -/
theorem Register_connect_fails (env : Env) (pIDgnSite : Site) (s : State)
    (hconn : (stateAfterConnect env pIDgnSite s).connected = false) :
    Register env pIDgnSite s = some (S_OK,
      { stateAfterConnect env pIDgnSite s with
        trace := (stateAfterConnect env pIDgnSite s).trace ++
          [Event.OutputDebugString "NatLink: failed to initialize NatSpeak interfaces",
           Event.displayText "Failed to initialize NatSpeak interfaces\r\n" true] }) := by
  simp only [stateAfterConnect] at hconn
  simp [Register, stateAfterConnect, Py_Initialize, initModule, setAppClass, natConnect,
    State.log, OutputDebugString, displayText, hconn]

/-- `Register` when the engine connection succeeds: the result in terms of
the state `r` in which the repair step returned. -/
theorem Register_connect_ok (env : Env) (pIDgnSite : Site) (s : State)
    (hconn : (stateAfterConnect env pIDgnSite s).connected = true) :
    ∃ r evs, addCoreToSysPath env (stateAfterConnect env pIDgnSite s) =
        some ((env.executePyCodeAsModule codeString moduleName
          (stateAfterConnect env pIDgnSite s).interp).1.isSome, r) ∧
      r = stateAfterRepair env (stateAfterConnect env pIDgnSite s) ∧
      r.m_pDragCode = (stateAfterConnect env pIDgnSite s).m_pDragCode ∧
      r.m_pNatLinkMain = s.m_pNatLinkMain ∧
      r.connected = true ∧ r.duringInit = s.duringInit ∧
      r.pyRunning = true ∧
      r.trace = (stateAfterConnect env pIDgnSite s).trace ++ evs ∧
      (∀ e ∈ evs, isRepairEvent e = true) ∧
      ((env.executePyCodeAsModule codeString moduleName
          (stateAfterConnect env pIDgnSite s).interp).1.isSome = true →
        displayed evs = []) ∧
      Register env pIDgnSite s =
        match env.PyImport_ImportModule "natlinkmain" r.interp with
        | (some m, i) => some (S_OK,
            { r with m_pNatLinkMain := some m, duringInit := false, interp := i,
                     trace := r.trace ++ [Event.setDuringInit true,
                       Event.PyImport_ImportModule "natlinkmain",
                       Event.setDuringInit false] })
        | (none, i) =>
          match env.parsePyErrString i with
          | (some t, j) => some (S_OK,
              { r with m_pNatLinkMain := none, duringInit := false, interp := j,
                       trace := r.trace ++ [Event.setDuringInit true,
                         Event.PyImport_ImportModule "natlinkmain",
                         Event.setDuringInit false,
                         Event.OutputDebugString
                           "NatLink: an exception occurred loading 'natlinkmain' module",
                         Event.displayText
                           "An exception occurred loading 'natlinkmain' module:\r\n" true,
                         Event.parsePyErrString,
                         Event.displayText t true,
                         Event.displayText "\r\n" env.displayTextDefault] })
          | (none, j) => some (S_OK,
              { r with m_pNatLinkMain := none, duringInit := false, interp := j,
                       trace := r.trace ++ [Event.setDuringInit true,
                         Event.PyImport_ImportModule "natlinkmain",
                         Event.setDuringInit false,
                         Event.OutputDebugString
                           "NatLink: an exception occurred loading 'natlinkmain' module",
                         Event.displayText
                           "An exception occurred loading 'natlinkmain' module:\r\n" true,
                         Event.parsePyErrString] }) := by
  obtain ⟨r, evs, hr, h1, h2, h3, h4, h5, h6, h7, h8⟩ :=
    addCoreToSysPath_frame env (stateAfterConnect env pIDgnSite s)
      (env.initModule (env.Py_Initialize s.interp)).1 rfl
  refine ⟨r, evs, hr, ?_, h1, h2, h3.trans hconn, h4, h5, h6, h7, h8, ?_⟩
  · simp [stateAfterRepair, hr]
  · have hr2 := hr
    simp only [stateAfterConnect] at hconn hr2
    simp only [hconn] at hr2
    unfold Register
    simp [Py_Initialize, initModule, setAppClass, natConnect, State.log, hconn, hr2]
    rcases h9 : env.PyImport_ImportModule "natlinkmain" r.interp with ⟨_ | m, i⟩
    · rcases h10 : env.parsePyErrString i with ⟨_ | t, j⟩
      · simp [setDuringInit, PyImport_ImportModule, State.log, h1, h9, h10, displayText,
          OutputDebugString, parsePyErrString]
      · simp [setDuringInit, PyImport_ImportModule, State.log, h1, h9, h10, displayText,
          OutputDebugString, parsePyErrString]
    · simp [setDuringInit, PyImport_ImportModule, State.log, h1, h9]

/-- `Register` returns `S_OK`; the calls it adds to the trace include neither
`Py_Finalize` nor `natDisconnect`, the runtime is up and the `CDragonCode`
pointer is set when it returns. -/
theorem Register_frame (env : Env) (pIDgnSite : Site) (s : State) :
    ∃ s' new, Register env pIDgnSite s = some (S_OK, s') ∧
      s'.m_pDragCode = some (env.initModule (env.Py_Initialize s.interp)).1 ∧
      s'.pyRunning = true ∧ s'.trace = s.trace ++ new ∧
      Event.Py_Finalize ∉ new ∧ Event.natDisconnect ∉ new := by
  rcases hc : (stateAfterConnect env pIDgnSite s).connected with _ | _
  · refine ⟨_, [Event.Py_Initialize, Event.initModule, Event.setAppClass,
        Event.natConnect pIDgnSite,
        Event.OutputDebugString "NatLink: failed to initialize NatSpeak interfaces",
        Event.displayText "Failed to initialize NatSpeak interfaces\r\n" true],
      Register_connect_fails env pIDgnSite s hc, rfl, rfl, ?_, ?_, ?_⟩
    · simp [stateAfterConnect]
    · simp
    · simp
  · obtain ⟨r, evs, -, -, h1, -, -, -, h5, h6, h7, -, hreg⟩ :=
      Register_connect_ok env pIDgnSite s hc
    have hfin : Event.Py_Finalize ∉ evs := fun hm => by
      have := h7 _ hm
      simp [isRepairEvent] at this
    have hdis : Event.natDisconnect ∉ evs := fun hm => by
      have := h7 _ hm
      simp [isRepairEvent] at this
    rw [hreg]
    rcases h9 : env.PyImport_ImportModule "natlinkmain" r.interp with ⟨_ | m, i⟩
    · dsimp only
      rcases h10 : env.parsePyErrString i with ⟨_ | t, j⟩
      · dsimp only
        refine ⟨_, ?_, rfl, h1, h5, ?_, ?_, ?_⟩
        rotate_left
        · simp only [h6, stateAfterConnect, List.append_assoc]
          exact rfl
        · simp [hfin]
        · simp [hdis]
      · dsimp only
        refine ⟨_, ?_, rfl, h1, h5, ?_, ?_, ?_⟩
        rotate_left
        · simp only [h6, stateAfterConnect, List.append_assoc]
          exact rfl
        · simp [hfin]
        · simp [hdis]
    · dsimp only
      refine ⟨_, ?_, rfl, h1, h5, ?_, ?_, ?_⟩
      rotate_left
      · simp only [h6, stateAfterConnect, List.append_assoc]
        exact rfl
      · simp [hfin]
      · simp [hdis]

/-- Calls of the repair step do not touch the initialisation flag. -/
theorem duringInitEvents_repair (evs rest : List Event) (flag : Bool)
    (h : ∀ e ∈ evs, isRepairEvent e = true) :
    duringInitEvents flag (evs ++ rest) =
      (if flag then evs else []) ++ duringInitEvents flag rest := by
  induction evs with
  | nil => cases flag <;> rfl
  | cons e es ih =>
    have he := h e (List.mem_cons_self e es)
    have ih2 := ih fun x hx => h x (List.mem_cons_of_mem e hx)
    cases e <;> cases flag <;> simp_all [duringInitEvents, isRepairEvent]

/-- The calls after the flag reset contain no import. -/
theorem count_import_importDiagnostics (env : Env) (i : Interp) :
    (importDiagnostics env i).count (Event.PyImport_ImportModule "natlinkmain") = 0 := by
  unfold importDiagnostics
  rcases env.PyImport_ImportModule "natlinkmain" i with ⟨_ | m, j⟩
  · dsimp only
    rcases (env.parsePyErrString j).1 with _ | t <;> simp
  · simp

/-- The calls after the flag reset do not touch the flag. -/
theorem duringInitEvents_importDiagnostics (env : Env) (i : Interp) :
    duringInitEvents false (importDiagnostics env i) = [] := by
  unfold importDiagnostics
  rcases env.PyImport_ImportModule "natlinkmain" i with ⟨_ | m, j⟩
  · dsimp only
    rcases (env.parsePyErrString j).1 with _ | t <;> simp [duringInitEvents]
  · simp [duringInitEvents]

/-! ## The claims -/

/-- C1: whatever the outcome of the engine connection, of the search-path
repair, of the import of the startup module and of the extraction of error
text, `Register` returns, and the status it returns is `S_OK`. -/
theorem Register_returns_S_OK (env : Env) (pIDgnSite : Site) (s : State) :
    ∃ s', Register env pIDgnSite s = some (S_OK, s') := by
  obtain ⟨s', _, h, _⟩ := Register_frame env pIDgnSite s
  exact ⟨s', h⟩

/-- C4: when the engine connection fails, `Register` returns `S_OK` after
exactly the calls listed: one text goes to the display sink, flagged as an
error; there is no call of the repair snippet, of the import or of
`setDuringInit`; the flag and the startup module handle are as they were, so
the handle is absent on a bridge fresh from its constructor. -/
theorem Register_connect_failure (env : Env) (pIDgnSite : Site) (s : State)
    (hconn : (stateAfterConnect env pIDgnSite s).connected = false) :
    ∃ s' new, Register env pIDgnSite s = some (S_OK, s') ∧
      s'.trace = s.trace ++ new ∧
      new = [Event.Py_Initialize, Event.initModule, Event.setAppClass,
        Event.natConnect pIDgnSite,
        Event.OutputDebugString "NatLink: failed to initialize NatSpeak interfaces",
        Event.displayText "Failed to initialize NatSpeak interfaces\r\n" true] ∧
      displayed new = [("Failed to initialize NatSpeak interfaces\r\n", true)] ∧
      (∀ c n, Event.executePyCodeAsModule c n ∉ new) ∧
      (∀ n, Event.PyImport_ImportModule n ∉ new) ∧
      (∀ b, Event.setDuringInit b ∉ new) ∧
      s'.duringInit = s.duringInit ∧
      s'.connected = false ∧
      s'.m_pNatLinkMain = s.m_pNatLinkMain ∧
      (∀ w, s = CDgnAppSupport w → s'.m_pNatLinkMain = none) := by
  refine ⟨_, _, Register_connect_fails env pIDgnSite s hconn, ?_, rfl, ?_, ?_, ?_, ?_, rfl,
    hconn, rfl, ?_⟩
  · simp [stateAfterConnect]
  · simp [displayed]
  · simp
  · simp
  · simp
  · rintro w rfl
    rfl

/-- C4, evaluated: a fresh bridge whose engine connection fails. -/
theorem Register_connect_failure_witness :
    (stateAfterConnect envConnectFails none state0).connected = false ∧
    ∃ s' new, Register envConnectFails none state0 = some (S_OK, s') ∧
      s'.trace = state0.trace ++ new ∧
      new = [Event.Py_Initialize, Event.initModule, Event.setAppClass,
        Event.natConnect none,
        Event.OutputDebugString "NatLink: failed to initialize NatSpeak interfaces",
        Event.displayText "Failed to initialize NatSpeak interfaces\r\n" true] ∧
      displayed new = [("Failed to initialize NatSpeak interfaces\r\n", true)] ∧
      (∀ c n, Event.executePyCodeAsModule c n ∉ new) ∧
      (∀ n, Event.PyImport_ImportModule n ∉ new) ∧
      (∀ b, Event.setDuringInit b ∉ new) ∧
      s'.duringInit = state0.duringInit ∧
      s'.connected = false ∧
      s'.m_pNatLinkMain = state0.m_pNatLinkMain ∧
      (∀ w, state0 = CDgnAppSupport w → s'.m_pNatLinkMain = none) :=
  ⟨rfl, Register_connect_failure envConnectFails none state0 rfl⟩

/-- C5, as stated, fails: `sys` has no attribute `modules`, the snippet
succeeds and enters "TempPyModule" in the dictionary 1; `addCoreToSysPath`
returns true after the three calls listed, none of them a deletion, and the
entry is still there. -/
theorem addCoreToSysPath_leak_counterexample :
    (envAllOk.executePyCodeAsModule codeString moduleName stateNoSysModules.interp).1 =
      some 7 ∧
    ∃ s', addCoreToSysPath envAllOk stateNoSysModules = some (true, s') ∧
      s'.trace = [Event.executePyCodeAsModule codeString moduleName,
        Event.PySys_GetObject "modules", Event.Py_DECREF 7] ∧
      s'.interp.sysAttr "modules" = none ∧
      s'.interp.dictItems 1 "TempPyModule" = some 7 :=
  ⟨rfl, _, rfl, rfl, rfl, rfl⟩

/-- C5, amended: when the repair snippet executes successfully and yields the
module `m`, `addCoreToSysPath` returns true and leaves the attributes of `sys`
as the snippet left them. When `PySys_GetObject( "modules" )` yields the
dictionary `d`, the calls are exactly those listed, with one
`PyDict_DelItemString( d, "TempPyModule" )`; afterwards `d` has no entry
"TempPyModule" and every other entry of every dictionary is as the snippet
left it. When `sys` has no attribute `modules`, nothing is deleted: the calls
are the three listed and the interpreter state is as the snippet left it. -/
theorem addCoreToSysPath_success (env : Env) (s : State) (m : PyObject)
    (hexec : (env.executePyCodeAsModule codeString moduleName s.interp).1 = some m) :
    ∃ s' new, addCoreToSysPath env s = some (true, s') ∧
      s'.trace = s.trace ++ new ∧
      s'.interp.sysAttr =
        (env.executePyCodeAsModule codeString moduleName s.interp).2.sysAttr ∧
      (∀ d, (env.executePyCodeAsModule codeString moduleName s.interp).2.sysAttr "modules" =
          some d →
        new = [Event.executePyCodeAsModule codeString moduleName,
          Event.PySys_GetObject "modules",
          Event.PyDict_DelItemString d "TempPyModule",
          Event.Py_DECREF d, Event.Py_DECREF m] ∧
        s'.interp.dictItems d "TempPyModule" = none ∧
        ∀ d2 k, ¬ (d2 = d ∧ k = "TempPyModule") →
          s'.interp.dictItems d2 k =
            (env.executePyCodeAsModule codeString moduleName s.interp).2.dictItems d2 k) ∧
      ((env.executePyCodeAsModule codeString moduleName s.interp).2.sysAttr "modules" = none →
        new = [Event.executePyCodeAsModule codeString moduleName,
          Event.PySys_GetObject "modules", Event.Py_DECREF m] ∧
        s'.interp = (env.executePyCodeAsModule codeString moduleName s.interp).2) := by
  have hname : moduleName = "TempPyModule" := rfl
  rw [← hname]
  unfold addCoreToSysPath
  rcases h1 : env.executePyCodeAsModule codeString moduleName s.interp with ⟨_ | m2, i1⟩
  · simp [h1] at hexec
  · rw [h1] at hexec
    simp only [Option.some.injEq] at hexec
    subst hexec
    rcases h3 : i1.sysAttr "modules" with _ | p
    · simp [executePyCodeAsModule, PySys_GetObject, Py_XDECREF, Py_DECREF, State.log, h1, h3]
    · rcases h4 : i1.dictItems p moduleName with _ | q
      · simp [executePyCodeAsModule, PySys_GetObject, Py_XDECREF, Py_DECREF, State.log, h1, h3,
          h4, PyDict_DelItemString]
      · simp [executePyCodeAsModule, PySys_GetObject, Py_XDECREF, Py_DECREF, State.log, h1, h3,
          h4, PyDict_DelItemString]
        intro d2 k hne hd2 hk
        exact absurd hk (hne hd2)

/-- C5 as amended, evaluated: `sys.modules` is the dictionary 1, the snippet
succeeds and enters "TempPyModule" there; the entry is gone when
`addCoreToSysPath` returns. -/
theorem addCoreToSysPath_success_witness :
    (envAllOk.executePyCodeAsModule codeString moduleName state0.interp).1 = some 7 ∧
    (envAllOk.executePyCodeAsModule codeString moduleName
        state0.interp).2.dictItems 1 "TempPyModule" = some 7 ∧
    ∃ s' new, addCoreToSysPath envAllOk state0 = some (true, s') ∧
      s'.trace = state0.trace ++ new ∧
      s'.interp.sysAttr =
        (envAllOk.executePyCodeAsModule codeString moduleName state0.interp).2.sysAttr ∧
      (∀ d, (envAllOk.executePyCodeAsModule codeString moduleName
            state0.interp).2.sysAttr "modules" = some d →
        new = [Event.executePyCodeAsModule codeString moduleName,
          Event.PySys_GetObject "modules",
          Event.PyDict_DelItemString d "TempPyModule",
          Event.Py_DECREF d, Event.Py_DECREF 7] ∧
        s'.interp.dictItems d "TempPyModule" = none ∧
        ∀ d2 k, ¬ (d2 = d ∧ k = "TempPyModule") →
          s'.interp.dictItems d2 k =
            (envAllOk.executePyCodeAsModule codeString moduleName
              state0.interp).2.dictItems d2 k) ∧
      ((envAllOk.executePyCodeAsModule codeString moduleName
            state0.interp).2.sysAttr "modules" = none →
        new = [Event.executePyCodeAsModule codeString moduleName,
          Event.PySys_GetObject "modules", Event.Py_DECREF 7] ∧
        s'.interp = (envAllOk.executePyCodeAsModule codeString moduleName state0.interp).2) :=
  ⟨rfl, rfl, addCoreToSysPath_success envAllOk state0 7 rfl⟩

/-- C8: `AddProcess` and `EndProcess` return `S_OK` and hand back the state
they were given, call trace included, for all arguments; so does every finite
sequence of them, and `UnRegister` after such a sequence does what it does
without it. -/
theorem AddProcess_EndProcess_noop (env : Env) (s : State) :
    (∀ pid m k l, AddProcess pid m k l s = (S_OK, s)) ∧
    (∀ pid, EndProcess pid s = (S_OK, s)) ∧
    ∀ ns : List Notification,
      (deliverAll ns s).2 = s ∧
      (deliverAll ns s).1 = List.replicate ns.length S_OK ∧
      UnRegister env (deliverAll ns s).2 = UnRegister env s := by
  refine ⟨fun _ _ _ _ => rfl, fun _ => rfl, fun ns => ?_⟩
  have h : (deliverAll ns s).2 = s ∧ (deliverAll ns s).1 = List.replicate ns.length S_OK := by
    induction ns with
    | nil => exact ⟨rfl, rfl⟩
    | cons n ns ih =>
      have hn : deliver n s = (S_OK, s) := by
        cases n <;> rfl
      simp [deliverAll, hn, ih.1, ih.2, List.replicate_succ]
  exact ⟨h.1, h.2, by rw [h.1]⟩

/-- C10: when the engine connection succeeds, whichever boolean `b` the
repair step returns, `Register` goes on with the same calls: it sets the
initialisation flag, imports "natlinkmain", clears the flag, and only then
makes the calls `importDiagnostics`, which depend on the interpreter state
left by the repair step and not on `b`. The import is the only call made
while the flag is set, there is exactly one import, and the flag is clear
when `Register` returns. -/
theorem Register_step_d (env : Env) (pIDgnSite : Site) (s : State)
    (hconn : (stateAfterConnect env pIDgnSite s).connected = true) :
    ∃ b r s' new, addCoreToSysPath env (stateAfterConnect env pIDgnSite s) = some (b, r) ∧
      Register env pIDgnSite s = some (S_OK, s') ∧
      s'.trace = r.trace ++ [Event.setDuringInit true,
        Event.PyImport_ImportModule "natlinkmain", Event.setDuringInit false] ++
        importDiagnostics env r.interp ∧
      (∀ flag, duringInitEvents flag ([Event.setDuringInit true,
        Event.PyImport_ImportModule "natlinkmain", Event.setDuringInit false] ++
        importDiagnostics env r.interp) = [Event.PyImport_ImportModule "natlinkmain"]) ∧
      s'.trace = s.trace ++ new ∧
      duringInitEvents false new = [Event.PyImport_ImportModule "natlinkmain"] ∧
      new.count (Event.PyImport_ImportModule "natlinkmain") = 1 ∧
      s'.duringInit = false := by
  obtain ⟨r, evs, hrep, -, h1, -, -, -, h5, h6, h7, -, hreg⟩ :=
    Register_connect_ok env pIDgnSite s hconn
  have hcnt : evs.count (Event.PyImport_ImportModule "natlinkmain") = 0 :=
    List.count_eq_zero.2 fun hm => by
      have := h7 _ hm
      simp [isRepairEvent] at this
  have hd := duringInitEvents_importDiagnostics env r.interp
  have hc := count_import_importDiagnostics env r.interp
  have hflag : ∀ flag, duringInitEvents flag ([Event.setDuringInit true,
      Event.PyImport_ImportModule "natlinkmain", Event.setDuringInit false] ++
      importDiagnostics env r.interp) = [Event.PyImport_ImportModule "natlinkmain"] := by
    intro flag
    simp [duringInitEvents, hd]
  have hnew : duringInitEvents false
      ([Event.Py_Initialize, Event.initModule, Event.setAppClass, Event.natConnect pIDgnSite] ++
        (evs ++ ([Event.setDuringInit true, Event.PyImport_ImportModule "natlinkmain",
          Event.setDuringInit false] ++ importDiagnostics env r.interp))) =
      [Event.PyImport_ImportModule "natlinkmain"] := by
    have h4 : ∀ rest, duringInitEvents false ([Event.Py_Initialize, Event.initModule,
        Event.setAppClass, Event.natConnect pIDgnSite] ++ rest) =
        duringInitEvents false rest := fun rest => by
      simp [duringInitEvents]
    rw [h4, duringInitEvents_repair _ _ _ h7, hflag]
    simp
  rcases h9 : env.PyImport_ImportModule "natlinkmain" r.interp with ⟨_ | m, i⟩
  · rw [h9] at hreg
    dsimp only at hreg
    rcases h10 : env.parsePyErrString i with ⟨_ | t, j⟩
    · rw [h10] at hreg
      refine ⟨_, r, _, _, hrep, hreg, ?_, hflag, ?_, hnew, ?_, rfl⟩
      · simp [importDiagnostics, h9, h10]
      · simp [h6, stateAfterConnect, importDiagnostics, h9, h10]
      · simp [hcnt, hc]
    · rw [h10] at hreg
      refine ⟨_, r, _, _, hrep, hreg, ?_, hflag, ?_, hnew, ?_, rfl⟩
      · simp [importDiagnostics, h9, h10]
      · simp [h6, stateAfterConnect, importDiagnostics, h9, h10]
      · simp [hcnt, hc]
  · rw [h9] at hreg
    refine ⟨_, r, _, _, hrep, hreg, ?_, hflag, ?_, hnew, ?_, rfl⟩
    · simp [importDiagnostics, h9]
    · simp [h6, stateAfterConnect, importDiagnostics, h9]
    · simp [hcnt, hc]

/-- C3: when the engine connection succeeds and the import of "natlinkmain"
fails, `Register` returns `S_OK` with the engine connected and without a call
of `natDisconnect`. After the repair step it makes exactly the calls listed:
the header goes to the display sink flagged as an error, then, when error
text `t` is extracted, `t` flagged as an error and "\r\n"; without error
text only the header. When the repair snippet succeeded these are all the
texts `Register` sends. -/
theorem Register_import_failure (env : Env) (pIDgnSite : Site) (s : State)
    (hconn : (stateAfterConnect env pIDgnSite s).connected = true)
    (himp : (importResult env pIDgnSite s).1 = none) :
    ∃ s' new, Register env pIDgnSite s = some (S_OK, s') ∧
      s'.connected = true ∧ s'.m_pNatLinkMain = none ∧
      s'.trace = s.trace ++ new ∧ Event.natDisconnect ∉ new ∧
      s'.trace = (stateAfterRepair env (stateAfterConnect env pIDgnSite s)).trace ++
        [Event.setDuringInit true, Event.PyImport_ImportModule "natlinkmain",
         Event.setDuringInit false,
         Event.OutputDebugString "NatLink: an exception occurred loading 'natlinkmain' module",
         Event.displayText "An exception occurred loading 'natlinkmain' module:\r\n" true,
         Event.parsePyErrString] ++
        (match importErrorText env pIDgnSite s with
         | some t => [Event.displayText t true, Event.displayText "\r\n" env.displayTextDefault]
         | none => []) ∧
      displayed s'.trace =
        displayed (stateAfterRepair env (stateAfterConnect env pIDgnSite s)).trace ++
        ("An exception occurred loading 'natlinkmain' module:\r\n", true) ::
        (match importErrorText env pIDgnSite s with
         | some t => [(t, true), ("\r\n", env.displayTextDefault)]
         | none => []) ∧
      ((env.executePyCodeAsModule codeString moduleName
          (stateAfterConnect env pIDgnSite s).interp).1.isSome = true →
        displayed new =
          ("An exception occurred loading 'natlinkmain' module:\r\n", true) ::
          (match importErrorText env pIDgnSite s with
           | some t => [(t, true), ("\r\n", env.displayTextDefault)]
           | none => [])) := by
  obtain ⟨r, evs, -, hr, -, -, h3, -, -, h6, h7, h8, hreg⟩ :=
    Register_connect_ok env pIDgnSite s hconn
  have hdis : Event.natDisconnect ∉ evs := fun hm => by
    have := h7 _ hm
    simp [isRepairEvent] at this
  simp only [importResult, importErrorText, ← hr] at himp ⊢
  rcases h9 : env.PyImport_ImportModule "natlinkmain" r.interp with ⟨_ | m, i⟩
  · rw [h9] at hreg
    dsimp only at hreg
    rcases h10 : env.parsePyErrString i with ⟨_ | t, j⟩
    · rw [h10] at hreg
      refine ⟨_, ?_, hreg, h3, rfl, ?_, ?_, ?_, ?_, ?_⟩
      rotate_left
      · simp only [h6, stateAfterConnect, List.append_assoc]
        exact rfl
      · simp [hdis]
      · simp [h10]
      · simp [h10, displayed]
      · intro he
        have h8e := h8 he
        simp only [displayed] at h8e
        simp [h10, displayed, h8e]
    · rw [h10] at hreg
      refine ⟨_, ?_, hreg, h3, rfl, ?_, ?_, ?_, ?_, ?_⟩
      rotate_left
      · simp only [h6, stateAfterConnect, List.append_assoc]
        exact rfl
      · simp [hdis]
      · simp [h10]
      · simp [h10, displayed]
      · intro he
        have h8e := h8 he
        simp only [displayed] at h8e
        simp [h10, displayed, h8e]
  · simp [h9] at himp

/-- C9: when the engine connection succeeds, the repair snippet executes
successfully and the import returns the module `m`, `Register` returns
`S_OK`, none of its calls is a `displayText`, the handle `m` is stored in
`m_pNatLinkMain`, and the engine is connected. -/
theorem Register_clean (env : Env) (pIDgnSite : Site) (s : State) (m : PyObject)
    (hconn : (stateAfterConnect env pIDgnSite s).connected = true)
    (hexec : (env.executePyCodeAsModule codeString moduleName
      (stateAfterConnect env pIDgnSite s).interp).1.isSome = true)
    (himp : (importResult env pIDgnSite s).1 = some m) :
    ∃ s' new, Register env pIDgnSite s = some (S_OK, s') ∧
      s'.trace = s.trace ++ new ∧ displayed new = [] ∧
      (∀ t b, Event.displayText t b ∉ new) ∧
      s'.m_pNatLinkMain = some m ∧ s'.connected = true := by
  obtain ⟨r, evs, -, hr, -, -, h3, -, -, h6, h7, h8, hreg⟩ :=
    Register_connect_ok env pIDgnSite s hconn
  have h8e := h8 hexec
  have hno : ∀ t b, Event.displayText t b ∉ evs := fun t b hm => by
    have hmem : (t, b) ∈ displayed evs := by
      simp only [displayed, List.mem_filterMap]
      exact ⟨_, hm, rfl⟩
    rw [h8e] at hmem
    simp at hmem
  simp only [importResult, ← hr] at himp
  rcases h9 : env.PyImport_ImportModule "natlinkmain" r.interp with ⟨_ | m2, i⟩
  · simp [h9] at himp
  · rw [h9] at hreg himp
    simp only [Option.some.injEq] at himp
    subst himp
    refine ⟨_, ?_, hreg, ?_, ?_, ?_, rfl, h3⟩
    rotate_left
    · simp only [h6, stateAfterConnect, List.append_assoc]
      exact rfl
    · simp only [displayed] at h8e
      simp [displayed, h8e]
    · intro t b
      simp [hno t b]

/-- C7: in a state in which `Register` has returned, `UnRegister` returns
`S_OK` after exactly these calls: one `natDisconnect`, then one `Py_DECREF`
of the stored startup module when there is one and nothing otherwise. No
text goes to the display sink. -/
theorem UnRegister_after_Register (env : Env) (pIDgnSite : Site) (s s1 : State)
    (hr : HRESULT) (hreg : Register env pIDgnSite s = some (hr, s1)) :
    ∃ s2 new, UnRegister env s1 = some (S_OK, s2) ∧
      s2.trace = s1.trace ++ new ∧
      new = Event.natDisconnect ::
        (match s1.m_pNatLinkMain with
         | some m => [Event.Py_DECREF m]
         | none => []) ∧
      new.count Event.natDisconnect = 1 ∧
      displayed new = [] ∧
      s2.connected = false := by
  obtain ⟨s', _, h, hd, -⟩ := Register_frame env pIDgnSite s
  rw [h] at hreg
  simp only [Option.some.injEq, Prod.mk.injEq] at hreg
  obtain ⟨-, rfl⟩ := hreg
  rcases hm : s'.m_pNatLinkMain with _ | m
  · exact ⟨_, _, by simp [UnRegister, natDisconnect, hd, hm, Py_XDECREF, State.log]; rfl,
      by simp, rfl, by simp, by simp [displayed], rfl⟩
  · exact ⟨_, _, by simp [UnRegister, natDisconnect, hd, hm, Py_XDECREF, Py_DECREF, State.log]; rfl,
      by simp, rfl, by simp, by simp [displayed], rfl⟩

/-- C2, as stated, fails: with every step succeeding, `Register` followed
by `UnRegister` makes the calls listed, none of which is `Py_Finalize`, and
the runtime is still initialised afterwards. -/
theorem UnRegister_finalize_counterexample :
    ∃ s1 s2, Register envAllOk none state0 = some (S_OK, s1) ∧
      UnRegister envAllOk s1 = some (S_OK, s2) ∧
      s2.trace = [Event.Py_Initialize, Event.initModule, Event.setAppClass,
        Event.natConnect none,
        Event.executePyCodeAsModule codeString moduleName,
        Event.PySys_GetObject "modules",
        Event.PyDict_DelItemString 1 "TempPyModule",
        Event.Py_DECREF 1, Event.Py_DECREF 7,
        Event.setDuringInit true, Event.PyImport_ImportModule "natlinkmain",
        Event.setDuringInit false,
        Event.natDisconnect, Event.Py_DECREF 9] ∧
      s2.trace.count Event.Py_Finalize = 0 ∧
      s2.pyRunning = true :=
  ⟨_, _, rfl, rfl, rfl, rfl, rfl⟩

/-- C2, amended: `Register` followed by `UnRegister` on the same bridge both
return `S_OK`; `UnRegister` disconnects the engine and then releases the
startup module reference when one is held; neither of them calls
`Py_Finalize`, and the runtime that `Register` initialised is still
initialised when `UnRegister` returns. -/
theorem Register_UnRegister_no_finalize (env : Env) (pIDgnSite : Site) (s : State) :
    ∃ s1 s2 new, Register env pIDgnSite s = some (S_OK, s1) ∧
      UnRegister env s1 = some (S_OK, s2) ∧
      s2.trace = s1.trace ++ Event.natDisconnect ::
        (match s1.m_pNatLinkMain with
         | some m => [Event.Py_DECREF m]
         | none => []) ∧
      s2.trace = s.trace ++ new ∧
      Event.Py_Finalize ∉ new ∧
      s2.pyRunning = true := by
  obtain ⟨s1, new1, h, hd, hrun, htr, hfin, -⟩ := Register_frame env pIDgnSite s
  have hun : ∃ s2, UnRegister env s1 = some (S_OK, s2) ∧
      s2.trace = s1.trace ++ Event.natDisconnect ::
        (match s1.m_pNatLinkMain with
         | some m => [Event.Py_DECREF m]
         | none => []) ∧
      s2.pyRunning = s1.pyRunning := by
    rcases hm : s1.m_pNatLinkMain with _ | m <;>
      simp [UnRegister, natDisconnect, hd, hm, Py_XDECREF, Py_DECREF, State.log]
  obtain ⟨s2, hu, ht, hp⟩ := hun
  refine ⟨s1, s2, new1 ++ Event.natDisconnect ::
    (match s1.m_pNatLinkMain with
     | some m => [Event.Py_DECREF m]
     | none => []), h, hu, ht, ?_, ?_, hp.trans hrun⟩
  · rw [ht, htr, List.append_assoc]
  · cases s1.m_pNatLinkMain <;> simp [hfin]

/-- C6, as stated, fails: the repair snippet fails, no error text can be
extracted, and `addCoreToSysPath` returns false without sending anything to
the display sink. -/
theorem addCoreToSysPath_silent_counterexample :
    (envRepairSilent.executePyCodeAsModule codeString moduleName
      (stateAfterConnect envRepairSilent none state0).interp).1 = none ∧
    ∃ s', addCoreToSysPath envRepairSilent
        (stateAfterConnect envRepairSilent none state0) = some (false, s') ∧
      s'.trace = (stateAfterConnect envRepairSilent none state0).trace ++
        [Event.executePyCodeAsModule codeString moduleName, Event.parsePyErrString,
         Event.PyErr_Clear] ∧
      displayed s'.trace = [] :=
  ⟨rfl, _, rfl, rfl, rfl⟩

/-- C6, amended: when the repair snippet fails, `addCoreToSysPath` (called
with the `CDragonCode` object in place) returns false. When error text `t`
can be extracted it sends the header, `t` flagged as an error, and "\r\n"
to the display sink; when none can it sends nothing. In both cases the error
indicator is clear on return, no `PyDict_DelItemString` is called, and the
dictionaries and `sys` attributes are as `parsePyErrString` left them. -/
theorem addCoreToSysPath_failure (env : Env) (s : State) (d : CDragonCodePtr)
    (hd : s.m_pDragCode = some d)
    (hexec : (env.executePyCodeAsModule codeString moduleName s.interp).1 = none) :
    ∃ s' new, addCoreToSysPath env s = some (false, s') ∧
      s'.trace = s.trace ++ new ∧
      displayed new =
        (match (env.parsePyErrString
            (env.executePyCodeAsModule codeString moduleName s.interp).2).1 with
         | some t => [("An exception occurred during addCoreToSysPath():\r\n",
                        env.displayTextDefault),
                      (t, true), ("\r\n", env.displayTextDefault)]
         | none => []) ∧
      s'.interp.errIndicator = none ∧
      (∀ dct k, Event.PyDict_DelItemString dct k ∉ new) ∧
      s'.interp.dictItems = (env.parsePyErrString
        (env.executePyCodeAsModule codeString moduleName s.interp).2).2.dictItems ∧
      s'.interp.sysAttr = (env.parsePyErrString
        (env.executePyCodeAsModule codeString moduleName s.interp).2).2.sysAttr := by
  unfold addCoreToSysPath
  rcases h1 : env.executePyCodeAsModule codeString moduleName s.interp with ⟨_ | m, i1⟩
  · rcases h2 : env.parsePyErrString i1 with ⟨_ | t, i2⟩
    · simp [executePyCodeAsModule, parsePyErrString, PyErr_Clear, Py_XDECREF, State.log, h1, h2,
        displayed]
    · simp [executePyCodeAsModule, parsePyErrString, PyErr_Clear, Py_XDECREF, State.log, h1, h2,
        hd, displayText, displayed]
  · simp [h1] at hexec

/-- C3, evaluated: a fresh bridge, the engine connects, the repair snippet
succeeds, the import fails and leaves an error text. -/
theorem Register_import_failure_witness :
    (stateAfterConnect envImportFails none state0).connected = true ∧
    (importResult envImportFails none state0).1 = none ∧
    importErrorText envImportFails none state0 =
      some "ImportError: No module named natlinkmain" ∧
    ∃ s' new, Register envImportFails none state0 = some (S_OK, s') ∧
      s'.connected = true ∧ s'.m_pNatLinkMain = none ∧
      s'.trace = state0.trace ++ new ∧ Event.natDisconnect ∉ new ∧
      s'.trace = (stateAfterRepair envImportFails (stateAfterConnect envImportFails none state0)).trace ++
        [Event.setDuringInit true, Event.PyImport_ImportModule "natlinkmain",
         Event.setDuringInit false,
         Event.OutputDebugString "NatLink: an exception occurred loading 'natlinkmain' module",
         Event.displayText "An exception occurred loading 'natlinkmain' module:\r\n" true,
         Event.parsePyErrString] ++
        (match importErrorText envImportFails none state0 with
         | some t => [Event.displayText t true, Event.displayText "\r\n" envImportFails.displayTextDefault]
         | none => []) ∧
      displayed s'.trace =
        displayed (stateAfterRepair envImportFails (stateAfterConnect envImportFails none state0)).trace ++
        ("An exception occurred loading 'natlinkmain' module:\r\n", true) ::
        (match importErrorText envImportFails none state0 with
         | some t => [(t, true), ("\r\n", envImportFails.displayTextDefault)]
         | none => []) ∧
      ((envImportFails.executePyCodeAsModule codeString moduleName
          (stateAfterConnect envImportFails none state0).interp).1.isSome = true →
        displayed new =
          ("An exception occurred loading 'natlinkmain' module:\r\n", true) ::
          (match importErrorText envImportFails none state0 with
           | some t => [(t, true), ("\r\n", envImportFails.displayTextDefault)]
           | none => [])) :=
  ⟨rfl, rfl, rfl, Register_import_failure envImportFails none state0 rfl rfl⟩

/-- C9, evaluated: a fresh bridge and every step succeeding. -/
theorem Register_clean_witness :
    (stateAfterConnect envAllOk none state0).connected = true ∧
    (envAllOk.executePyCodeAsModule codeString moduleName
      (stateAfterConnect envAllOk none state0).interp).1.isSome = true ∧
    (importResult envAllOk none state0).1 = some 9 ∧
    ∃ s' new, Register envAllOk none state0 = some (S_OK, s') ∧
      s'.trace = state0.trace ++ new ∧ displayed new = [] ∧
      (∀ t b, Event.displayText t b ∉ new) ∧
      s'.m_pNatLinkMain = some 9 ∧ s'.connected = true :=
  ⟨rfl, rfl, rfl, Register_clean envAllOk none state0 9 rfl rfl rfl⟩

/-- C10, evaluated: a fresh bridge, the engine connects, the repair snippet
fails (the repair step returns false), the import succeeds. -/
theorem Register_step_d_witness :
    (stateAfterConnect envRepairFails none state0).connected = true ∧
    (envRepairFails.executePyCodeAsModule codeString moduleName
      (stateAfterConnect envRepairFails none state0).interp).1 = none ∧
    ∃ b r s' new, addCoreToSysPath envRepairFails (stateAfterConnect envRepairFails none state0) = some (b, r) ∧
      Register envRepairFails none state0 = some (S_OK, s') ∧
      s'.trace = r.trace ++ [Event.setDuringInit true,
        Event.PyImport_ImportModule "natlinkmain", Event.setDuringInit false] ++
        importDiagnostics envRepairFails r.interp ∧
      (∀ flag, duringInitEvents flag ([Event.setDuringInit true,
        Event.PyImport_ImportModule "natlinkmain", Event.setDuringInit false] ++
        importDiagnostics envRepairFails r.interp) = [Event.PyImport_ImportModule "natlinkmain"]) ∧
      s'.trace = state0.trace ++ new ∧
      duringInitEvents false new = [Event.PyImport_ImportModule "natlinkmain"] ∧
      new.count (Event.PyImport_ImportModule "natlinkmain") = 1 ∧
      s'.duringInit = false :=
  ⟨rfl, rfl, Register_step_d envRepairFails none state0 rfl⟩

/-- C7, evaluated: `UnRegister` on the bridge that `Register` left with the
startup module 9 loaded. -/
theorem UnRegister_after_Register_witness :
    Register envAllOk none state0 = some (S_OK, registered) ∧
    registered.m_pNatLinkMain = some 9 ∧
    ∃ s2 new, UnRegister envAllOk registered = some (S_OK, s2) ∧
      s2.trace = registered.trace ++ new ∧
      new = Event.natDisconnect ::
        (match registered.m_pNatLinkMain with
         | some m => [Event.Py_DECREF m]
         | none => []) ∧
      new.count Event.natDisconnect = 1 ∧
      displayed new = [] ∧
      s2.connected = false :=
  ⟨rfl, rfl, UnRegister_after_Register envAllOk none state0 registered S_OK rfl⟩

/-- C6 as amended, evaluated: the repair snippet fails and leaves an error
text. -/
theorem addCoreToSysPath_failure_witness :
    (stateAfterConnect envRepairFails none state0).m_pDragCode = some 5 ∧
    (envRepairFails.executePyCodeAsModule codeString moduleName
      (stateAfterConnect envRepairFails none state0).interp).1 = none ∧
    (envRepairFails.parsePyErrString
      (envRepairFails.executePyCodeAsModule codeString moduleName
        (stateAfterConnect envRepairFails none state0).interp).2).1 = some "FileNotFoundError" ∧
    ∃ s' new, addCoreToSysPath envRepairFails (stateAfterConnect envRepairFails none state0) = some (false, s') ∧
      s'.trace = (stateAfterConnect envRepairFails none state0).trace ++ new ∧
      displayed new =
        (match (envRepairFails.parsePyErrString
            (envRepairFails.executePyCodeAsModule codeString moduleName (stateAfterConnect envRepairFails none state0).interp).2).1 with
         | some t => [("An exception occurred during addCoreToSysPath():\r\n",
                        envRepairFails.displayTextDefault),
                      (t, true), ("\r\n", envRepairFails.displayTextDefault)]
         | none => []) ∧
      s'.interp.errIndicator = none ∧
      (∀ dct k, Event.PyDict_DelItemString dct k ∉ new) ∧
      s'.interp.dictItems = (envRepairFails.parsePyErrString
        (envRepairFails.executePyCodeAsModule codeString moduleName (stateAfterConnect envRepairFails none state0).interp).2).2.dictItems ∧
      s'.interp.sysAttr = (envRepairFails.parsePyErrString
        (envRepairFails.executePyCodeAsModule codeString moduleName (stateAfterConnect envRepairFails none state0).interp).2).2.sysAttr :=
  ⟨rfl, rfl, rfl, addCoreToSysPath_failure envRepairFails (stateAfterConnect envRepairFails none state0) 5 rfl rfl⟩

end CDgnAppSupport
end Natlink
